import Mathlib

/-!
# The web Deployment syncer of the Wordpress operator

A shallow embedding of `pkg/controller/wordpress/internal/sync/deploy.go`
(`NewDeploymentSyncer` and the mutate closure it hands to `syncer.New`),
followed by theorems about the mutate function.

Conventions of the embedding:

* a Go struct is a Lean structure whose field defaults are the Go zero values,
  so `{}` is the zero value and a Go composite literal reads the same in Lean;
* an embedded Go struct (`metav1.TypeMeta`, `metav1.ObjectMeta`) is a parent
  structure, so promoted fields such as `out.Labels` keep their Go spelling;
* a Go pointer `*T` is `Option T` (`none` is the nil pointer);
* a Go `map[string]string` is `Option StringMap` (`none` is the nil map, `some m`
  a non-nil map seen as a finite map, so that two maps are equal exactly when
  they hold the same entries);
* a Go slice is a `List` (the nil slice and the empty slice are both `[]`);
* `int32` / `int64` values are only copied by this code, never computed with,
  and are carried as `Int`;
* the closure edits `out` in place; the embedding passes the object explicitly
  and returns it together with the way the call ended (returned error value or
  run-time panic), so that the state left behind by a panic is visible too.
-/

namespace WordpressOperator

/-! ## Kubernetes API types used by the source -/

/-- A non-nil Go `map[string]string` (also `labels.Set`), as a finite map. -/
abbrev StringMap := Finmap (fun _ : String => String)

/-- Go `metav1.Time`, an instant; `0` is the zero value. -/
abbrev Time := Int

/-- Go `metav1.TypeMeta`. -/
structure TypeMeta where
  Kind : String := ""
  APIVersion : String := ""
deriving DecidableEq

/-- Go `metav1.OwnerReference`. -/
structure OwnerReference where
  APIVersion : String := ""
  Kind : String := ""
  Name : String := ""
  UID : String := ""
  Controller : Option Bool := none
  BlockOwnerDeletion : Option Bool := none
deriving DecidableEq

/-- Go `metav1.ObjectMeta`. -/
structure ObjectMeta where
  Name : String := ""
  GenerateName : String := ""
  Namespace : String := ""
  SelfLink : String := ""
  UID : String := ""
  ResourceVersion : String := ""
  Generation : Int := 0
  CreationTimestamp : Time := 0
  DeletionTimestamp : Option Time := none
  DeletionGracePeriodSeconds : Option Int := none
  Labels : Option StringMap := none
  Annotations : Option StringMap := none
  OwnerReferences : List OwnerReference := []
  Finalizers : List String := []
  ClusterName : String := ""
deriving DecidableEq

/-- Go `metav1.LabelSelectorRequirement`. -/
structure LabelSelectorRequirement where
  Key : String := ""
  Operator : String := ""
  Values : List String := []
deriving DecidableEq

/-- Go `metav1.LabelSelector`. -/
structure LabelSelector where
  MatchLabels : Option StringMap := none
  MatchExpressions : List LabelSelectorRequirement := []
deriving DecidableEq

/-- Go `corev1.EnvVar` (name and literal value). -/
structure EnvVar where
  Name : String := ""
  Value : String := ""
deriving DecidableEq

/-- Go `corev1.Container`, abridged to its main fields; the syncer never looks
inside a container. -/
structure Container where
  Name : String := ""
  Image : String := ""
  Command : List String := []
  Args : List String := []
  WorkingDir : String := ""
  Env : List EnvVar := []
deriving DecidableEq

/-- Go `corev1.PodSpec`, abridged to its main fields; the syncer never looks
inside a pod spec, it copies the whole pod template. -/
structure PodSpec where
  InitContainers : List Container := []
  Containers : List Container := []
  RestartPolicy : String := ""
  NodeSelector : Option StringMap := none
  ServiceAccountName : String := ""
deriving DecidableEq

/-- Go `corev1.PodTemplateSpec`. -/
structure PodTemplateSpec extends ObjectMeta where
  Spec : PodSpec := {}
deriving DecidableEq

/-- Go `intstr.IntOrString`. -/
inductive IntOrString where
  | int (v : Int)
  | str (v : String)
deriving DecidableEq

/-- Go `appsv1.RollingUpdateDeployment`. -/
structure RollingUpdateDeployment where
  MaxUnavailable : Option IntOrString := none
  MaxSurge : Option IntOrString := none
deriving DecidableEq

/-- Go `appsv1.DeploymentStrategy` (`Type_` is the Go field `Type`). -/
structure DeploymentStrategy where
  Type_ : String := ""
  RollingUpdate : Option RollingUpdateDeployment := none
deriving DecidableEq

/-- Go `appsv1.DeploymentSpec`. -/
structure DeploymentSpec where
  Replicas : Option Int := none
  Selector : Option LabelSelector := none
  Template : PodTemplateSpec := {}
  Strategy : DeploymentStrategy := {}
  MinReadySeconds : Int := 0
  RevisionHistoryLimit : Option Int := none
  Paused : Bool := false
  ProgressDeadlineSeconds : Option Int := none
deriving DecidableEq

/-- Go `appsv1.DeploymentCondition` (`Type_` is the Go field `Type`). -/
structure DeploymentCondition where
  Type_ : String := ""
  Status : String := ""
  LastUpdateTime : Time := 0
  LastTransitionTime : Time := 0
  Reason : String := ""
  Message : String := ""
deriving DecidableEq

/-- Go `appsv1.DeploymentStatus`. -/
structure DeploymentStatus where
  ObservedGeneration : Int := 0
  Replicas : Int := 0
  UpdatedReplicas : Int := 0
  ReadyReplicas : Int := 0
  AvailableReplicas : Int := 0
  UnavailableReplicas : Int := 0
  Conditions : List DeploymentCondition := []
  CollisionCount : Option Int := none
deriving DecidableEq

/-- Go `appsv1.Deployment`. -/
structure Deployment extends TypeMeta, ObjectMeta where
  Spec : DeploymentSpec := {}
  Status : DeploymentStatus := {}
deriving DecidableEq

/-! ## The operator's own API types

`wordpressv1alpha1.Wordpress` and `wordpressv1alpha1.WordpressRuntime` are
declared in `pkg/apis/wordpress/v1alpha1`. The source reads `wp.Namespace` and
`wp.Spec.Replicas` directly; everything else goes through methods of
`*Wordpress`, which are parameters of the embedding (`WordpressMethods`). -/

/-- Go `wordpressv1alpha1.WordpressSpec`: the field the syncer reads. -/
structure WordpressSpec where
  Replicas : Option Int := none
deriving DecidableEq

/-- Go `wordpressv1alpha1.Wordpress`. -/
structure Wordpress extends TypeMeta, ObjectMeta where
  Spec : WordpressSpec := {}
deriving DecidableEq

/-- Go `wordpressv1alpha1.WordpressRuntime`; the syncer only passes it on. -/
structure WordpressRuntime extends TypeMeta, ObjectMeta where
deriving DecidableEq

/-- The methods of `*Wordpress` that the syncer calls. Their bodies live in
`pkg/apis/wordpress/v1alpha1`; here they are arbitrary functions of their
arguments, with the Go result types: `WebPodLabels` returns a `labels.Set`
(a possibly nil map) and `WebPodTemplateSpec` a `*corev1.PodTemplateSpec`
(a possibly nil pointer). -/
structure WordpressMethods where
  GetDeploymentName : Wordpress → String
  WebPodLabels : Wordpress → Option StringMap
  WebPodTemplateSpec : Wordpress → Option WordpressRuntime → Option PodTemplateSpec

/-! ## `metav1.SetAsLabelSelector` -/

/-- The loop `for label, value := range ls { dst[label] = value }`, run over the
entries in one given order. -/
def rangeStore (entries : List (Sigma (fun _ : String => String))) (dst : StringMap) :
    StringMap :=
  entries.foldl (fun m e => m.insert e.1 e.2) dst

/-- The statements `m := make(map[string]string); for label, value := range ls
{ m[label] = value }`. Go ranges over a map in an unspecified order; the proof
obligation of `Finmap.liftOn` is that every order gives the same map. -/
def copyEntries (ls : StringMap) : StringMap :=
  Finmap.liftOn ls (fun s => rangeStore s.entries ∅) (by
    have look : ∀ l : List (Sigma (fun _ : String => String)), l.NodupKeys →
        ∀ (dst : StringMap) (k : String), (rangeStore l dst).lookup k
          = (List.dlookup k l).orElse (fun _ => dst.lookup k) := by
      intro l
      induction l with
      | nil => intro _ dst k; simp [rangeStore]
      | cons e t ih =>
        intro hnd dst k
        have hnd2 := List.nodupKeys_cons.mp hnd
        have hstep := ih hnd2.2 (dst.insert e.1 e.2) k
        simp only [rangeStore, List.foldl_cons] at hstep ⊢
        rw [hstep]
        obtain ⟨a, b⟩ := e
        by_cases hk : k = a
        · subst hk
          have hnone : List.dlookup k t = none := by
            rw [List.dlookup_eq_none]; exact hnd2.1
          simp [hnone, Finmap.lookup_insert, List.dlookup_cons_eq]
        · rw [Finmap.lookup_insert_of_ne _ hk, List.dlookup_cons_ne _ _ (fun h => hk h)]
    intro a b hab
    apply Finmap.ext_lookup
    intro k
    show (rangeStore a.entries ∅).lookup k = (rangeStore b.entries ∅).lookup k
    rw [look _ a.nodupKeys, look _ b.nodupKeys, List.perm_dlookup k a.nodupKeys b.nodupKeys hab])

/-- Go `metav1.SetAsLabelSelector`: nil for a nil set, otherwise a fresh selector
whose `MatchLabels` receives every entry of the set and whose `MatchExpressions`
is left at its zero value. -/
def SetAsLabelSelector (ls : Option StringMap) : Option LabelSelector :=
  match ls with
  | none => none
  | some m => some { MatchLabels := some (copyEntries m) }

/-! ## `runtime.Object` values and the ways a call can end -/

/-- A value of the Go interface `runtime.Object`, by dynamic type. -/
inductive RuntimeObject where
  /-- The nil interface value. -/
  | nil
  /-- Dynamic type `*appsv1.Deployment`; `none` is the nil pointer. -/
  | deployment (p : Option Deployment)
  /-- Any other dynamic type, by name. -/
  | other (typeName : String)
deriving DecidableEq

/-- The run-time panics the closure can raise. -/
inductive Panic where
  /-- Failed single-value type assertion `existing.(*appsv1.Deployment)`. -/
  | interfaceConversion
  /-- Dereference of a nil pointer. -/
  | nilDereference
deriving DecidableEq

/-- How a call of the mutate function ends: it returns an `error` value
(`none` is the nil error), or it panics. -/
inductive Outcome where
  | returned (err : Option String)
  | panicked (p : Panic)
deriving DecidableEq

/-- The Deployment `out` as the closure body leaves it, and how the body ended. -/
structure DeploymentRun where
  out : Deployment
  outcome : Outcome
deriving DecidableEq

/-- The object passed to the mutate function as the call leaves it, and how
the call ended. -/
structure MutateRun where
  obj : RuntimeObject
  outcome : Outcome
deriving DecidableEq

/-! ## `NewDeploymentSyncer` -/

/-- The body of the mutate closure once `out` is a non-nil `*appsv1.Deployment`:
the four assignments in source order, then `return nil`. Dereferencing a nil
`wp.WebPodTemplateSpec(rt)` panics after `Labels` and `Spec.Selector` have
already been assigned. -/
def mutateDeployment (M : WordpressMethods) (wp : Wordpress) (rt : Option WordpressRuntime)
    (out : Deployment) : DeploymentRun :=
  -- out.Labels = wp.WebPodLabels()
  let out := { out with Labels := M.WebPodLabels wp }
  -- out.Spec.Selector = metav1.SetAsLabelSelector(wp.WebPodLabels())
  let out := { out with Spec := { out.Spec with Selector := SetAsLabelSelector (M.WebPodLabels wp) } }
  -- out.Spec.Template = *wp.WebPodTemplateSpec(rt)
  match M.WebPodTemplateSpec wp rt with
  | none => { out := out, outcome := Outcome.panicked Panic.nilDereference }
  | some tpl =>
    let out := { out with Spec := { out.Spec with Template := tpl } }
    -- if wp.Spec.Replicas != nil { out.Spec.Replicas = wp.Spec.Replicas }
    let out :=
      if wp.Spec.Replicas ≠ none then
        { out with Spec := { out.Spec with Replicas := wp.Spec.Replicas } }
      else out
    -- return nil
    { out := out, outcome := Outcome.returned none }

/-- The mutate closure `func(existing runtime.Object) error` for a non-nil `wp`:
the type assertion `out := existing.(*appsv1.Deployment)` followed by the body. -/
def mutate (M : WordpressMethods) (wp : Wordpress) (rt : Option WordpressRuntime)
    (existing : RuntimeObject) : MutateRun :=
  match existing with
  | RuntimeObject.deployment (some out) =>
    let r := mutateDeployment M wp rt out
    { obj := RuntimeObject.deployment (some r.out), outcome := r.outcome }
  | RuntimeObject.deployment none =>
    { obj := existing, outcome := Outcome.panicked Panic.nilDereference }
  | _ => { obj := existing, outcome := Outcome.panicked Panic.interfaceConversion }

/-- What `syncer.New(name, owner, obj, syncFn)` is given. -/
structure ObjectSyncer where
  Name : String
  Owner : Wordpress
  Obj : RuntimeObject
  SyncFn : RuntimeObject → MutateRun

/-- Go `NewDeploymentSyncer` for a non-nil `wp` (a nil `wp` panics on
`wp.Namespace` before any syncer exists). -/
def NewDeploymentSyncer (M : WordpressMethods) (wp : Wordpress) (rt : Option WordpressRuntime) :
    ObjectSyncer :=
  let obj : Deployment := { Name := M.GetDeploymentName wp, Namespace := wp.Namespace }
  { Name := "Deployment"
    Owner := wp
    Obj := RuntimeObject.deployment (some obj)
    SyncFn := mutate M wp rt }

/-! ## A concrete instance

One parent resource, one set of helper methods and one live Deployment, on
which the theorems below are also run. -/

/-- A pod template for the sample helper methods. -/
def samplePodTemplate : PodTemplateSpec :=
  { Labels := some (Finmap.singleton "app" "web")
    Spec := { Containers := [{ Name := "wordpress", Image := "wordpress:5" }] } }

/-- Sample helper methods: the Deployment is named after the parent, every pod
carries the label `app=web`, and the pod template is `samplePodTemplate`. -/
def sampleMethods : WordpressMethods :=
  { GetDeploymentName := fun wp => wp.Name
    WebPodLabels := fun _ => some (Finmap.singleton "app" "web")
    WebPodTemplateSpec := fun _ _ => some samplePodTemplate }

/-- Helper methods like `sampleMethods`, except that `WebPodTemplateSpec`
returns the nil pointer. -/
def nilTemplateMethods : WordpressMethods :=
  { GetDeploymentName := fun wp => wp.Name
    WebPodLabels := fun _ => some (Finmap.singleton "app" "web")
    WebPodTemplateSpec := fun _ _ => none }

/-- A parent `Wordpress` named `web` in namespace `ns` that asks for 3 replicas. -/
def sampleWordpress : Wordpress :=
  { Name := "web", Namespace := "ns", Spec := { Replicas := some 3 } }

/-- The same parent with the replica count left unset. -/
def sampleWordpressNoReplicas : Wordpress :=
  { Name := "web", Namespace := "ns" }

/-- A live Deployment with 2 replicas, a stale label, a foreign annotation, a
resource version and a status written by the Deployment controller. -/
def sampleLive : Deployment :=
  { Kind := "Deployment", APIVersion := "apps/v1"
    Name := "web", Namespace := "ns", ResourceVersion := "41"
    Labels := some (Finmap.singleton "stale" "yes")
    Annotations := some (Finmap.singleton "deployment.kubernetes.io/revision" "7")
    OwnerReferences := [{ APIVersion := "wordpress.presslabs.org/v1alpha1", Kind := "Wordpress",
                          Name := "blog", UID := "u-1", Controller := some true,
                          BlockOwnerDeletion := some true }]
    Spec := { Replicas := some 2, Strategy := { Type_ := "RollingUpdate" }, Paused := true }
    Status := { ObservedGeneration := 4, Replicas := 2, ReadyReplicas := 2 } }

/-- A live Deployment that already has the shape `sampleMethods` asks for on
behalf of `sampleWordpress`. -/
def sampleConverged : Deployment :=
  { Kind := "Deployment", APIVersion := "apps/v1"
    Name := "web", Namespace := "ns", ResourceVersion := "42"
    Labels := some (Finmap.singleton "app" "web")
    Spec := { Replicas := some 3
              Selector := some { MatchLabels := some (Finmap.singleton "app" "web") }
              Template := samplePodTemplate }
    Status := { ObservedGeneration := 5, Replicas := 3, ReadyReplicas := 3 } }

/-! ## Facts about the embedding -/

/-- After the loop, a key holds the value of its entry when it has one, and what
the destination held before otherwise. -/
theorem lookup_rangeStore (entries : List (Sigma (fun _ : String => String)))
    (hnd : entries.NodupKeys) (dst : StringMap) (k : String) :
    (rangeStore entries dst).lookup k
      = (List.dlookup k entries).orElse (fun _ => dst.lookup k) := by
  induction entries generalizing dst with
  | nil => simp [rangeStore]
  | cons e t ih =>
    have hnd2 := List.nodupKeys_cons.mp hnd
    have hstep := ih hnd2.2 (dst.insert e.1 e.2)
    simp only [rangeStore, List.foldl_cons] at hstep ⊢
    rw [hstep]
    obtain ⟨a, b⟩ := e
    by_cases hk : k = a
    · subst hk
      have hnone : List.dlookup k t = none := by
        rw [List.dlookup_eq_none]; exact hnd2.1
      simp [hnone, Finmap.lookup_insert, List.dlookup_cons_eq]
    · rw [Finmap.lookup_insert_of_ne _ hk, List.dlookup_cons_ne _ _ (fun h => hk h)]

/-- Storing every entry of a map into a fresh empty map rebuilds that map. -/
theorem rangeStore_empty (s : AList (fun _ : String => String)) :
    rangeStore s.entries ∅ = AList.toFinmap s := by
  apply Finmap.ext_lookup
  intro k
  rw [lookup_rangeStore _ s.nodupKeys, Finmap.lookup_toFinmap]
  simp [AList.lookup]

/-- The copy loop of `SetAsLabelSelector` yields a map equal to its source. -/
theorem copyEntries_eq (ls : StringMap) : copyEntries ls = ls := by
  induction ls using Finmap.induction_on with
  | H a => simp [copyEntries, Finmap.liftOn_toFinmap, rangeStore_empty]

/-- The selector built from a non-nil set matches exactly that set and has no
match expressions. -/
theorem SetAsLabelSelector_some (m : StringMap) :
    SetAsLabelSelector (some m) = some { MatchLabels := some m, MatchExpressions := [] } := by
  simp [SetAsLabelSelector, copyEntries_eq]

/-- The closure body when the pod template pointer is non-nil. -/
theorem mutateDeployment_of_template (M : WordpressMethods) (wp : Wordpress)
    (rt : Option WordpressRuntime) (d : Deployment) (t : PodTemplateSpec)
    (hT : M.WebPodTemplateSpec wp rt = some t) :
    mutateDeployment M wp rt d =
      { out := { d with
                 Labels := M.WebPodLabels wp
                 Spec := { d.Spec with
                           Selector := SetAsLabelSelector (M.WebPodLabels wp)
                           Template := t
                           Replicas := if wp.Spec.Replicas ≠ none then wp.Spec.Replicas
                                       else d.Spec.Replicas } }
        outcome := Outcome.returned none } := by
  unfold mutateDeployment
  rw [hT]
  by_cases h : wp.Spec.Replicas = none <;> simp [h]

/-- The closure body when the pod template pointer is nil. -/
theorem mutateDeployment_of_nil_template (M : WordpressMethods) (wp : Wordpress)
    (rt : Option WordpressRuntime) (d : Deployment)
    (hT : M.WebPodTemplateSpec wp rt = none) :
    mutateDeployment M wp rt d =
      { out := { d with
                 Labels := M.WebPodLabels wp
                 Spec := { d.Spec with Selector := SetAsLabelSelector (M.WebPodLabels wp) } }
        outcome := Outcome.panicked Panic.nilDereference } := by
  unfold mutateDeployment
  rw [hT]

/-! ## The mutate function contract -/

/-- C1: the mutate function is idempotent. Running the closure body on the
Deployment it has just produced leaves that Deployment as it is and ends the
same way; the same holds for the closure itself on any `runtime.Object`. -/
theorem mutate_idempotent (M : WordpressMethods) (wp : Wordpress)
    (rt : Option WordpressRuntime) :
    (∀ d : Deployment,
      mutateDeployment M wp rt (mutateDeployment M wp rt d).out = mutateDeployment M wp rt d) ∧
    (∀ existing : RuntimeObject,
      (NewDeploymentSyncer M wp rt).SyncFn ((NewDeploymentSyncer M wp rt).SyncFn existing).obj
        = (NewDeploymentSyncer M wp rt).SyncFn existing) := by
  have body : ∀ d : Deployment,
      mutateDeployment M wp rt (mutateDeployment M wp rt d).out
        = mutateDeployment M wp rt d := by
    intro d
    cases hT : M.WebPodTemplateSpec wp rt with
    | none =>
      rw [mutateDeployment_of_nil_template M wp rt d hT,
        mutateDeployment_of_nil_template M wp rt _ hT]
    | some t =>
      rw [mutateDeployment_of_template M wp rt d t hT,
        mutateDeployment_of_template M wp rt _ t hT]
      by_cases h : wp.Spec.Replicas = none <;> simp [h]
  refine ⟨body, ?_⟩
  intro existing
  show mutate M wp rt (mutate M wp rt existing).obj = mutate M wp rt existing
  match existing with
  | RuntimeObject.nil => rfl
  | RuntimeObject.other _ => rfl
  | RuntimeObject.deployment none => rfl
  | RuntimeObject.deployment (some d) =>
    show mutate M wp rt (RuntimeObject.deployment (some (mutateDeployment M wp rt d).out))
      = mutate M wp rt (RuntimeObject.deployment (some d))
    simp only [mutate, body d]

/-- C2: the mutate function never alters the identity of the object: name,
namespace, kind and API version of the Deployment it leaves are those it was
given. -/
theorem mutate_preserves_identity (M : WordpressMethods) (wp : Wordpress)
    (rt : Option WordpressRuntime) (d : Deployment) :
    (mutateDeployment M wp rt d).out.Name = d.Name ∧
    (mutateDeployment M wp rt d).out.Namespace = d.Namespace ∧
    (mutateDeployment M wp rt d).out.Kind = d.Kind ∧
    (mutateDeployment M wp rt d).out.APIVersion = d.APIVersion := by
  cases hT : M.WebPodTemplateSpec wp rt with
  | none => rw [mutateDeployment_of_nil_template M wp rt d hT]; exact ⟨rfl, rfl, rfl, rfl⟩
  | some t => rw [mutateDeployment_of_template M wp rt d t hT]; exact ⟨rfl, rfl, rfl, rfl⟩

/-- C3: the mutate function touches only `Labels`, `Spec.Selector`,
`Spec.Template` and `Spec.Replicas`: putting the old values of these four
fields back into the Deployment it leaves gives the original Deployment, and in
particular the status, annotations, owner references, resource version and the
remaining spec fields are those of the original. -/
theorem mutate_frame (M : WordpressMethods) (wp : Wordpress)
    (rt : Option WordpressRuntime) (d : Deployment) :
    { (mutateDeployment M wp rt d).out with
        Labels := d.Labels
        Spec := { (mutateDeployment M wp rt d).out.Spec with
                  Selector := d.Spec.Selector
                  Template := d.Spec.Template
                  Replicas := d.Spec.Replicas } } = d ∧
    (mutateDeployment M wp rt d).out.Status = d.Status ∧
    (mutateDeployment M wp rt d).out.Annotations = d.Annotations ∧
    (mutateDeployment M wp rt d).out.OwnerReferences = d.OwnerReferences ∧
    (mutateDeployment M wp rt d).out.ResourceVersion = d.ResourceVersion ∧
    (mutateDeployment M wp rt d).out.Finalizers = d.Finalizers ∧
    (mutateDeployment M wp rt d).out.Spec.Strategy = d.Spec.Strategy ∧
    (mutateDeployment M wp rt d).out.Spec.MinReadySeconds = d.Spec.MinReadySeconds ∧
    (mutateDeployment M wp rt d).out.Spec.RevisionHistoryLimit = d.Spec.RevisionHistoryLimit ∧
    (mutateDeployment M wp rt d).out.Spec.Paused = d.Spec.Paused ∧
    (mutateDeployment M wp rt d).out.Spec.ProgressDeadlineSeconds
      = d.Spec.ProgressDeadlineSeconds := by
  cases hT : M.WebPodTemplateSpec wp rt with
  | none =>
    rw [mutateDeployment_of_nil_template M wp rt d hT]
    exact ⟨rfl, rfl, rfl, rfl, rfl, rfl, rfl, rfl, rfl, rfl, rfl⟩
  | some t =>
    rw [mutateDeployment_of_template M wp rt d t hT]
    exact ⟨rfl, rfl, rfl, rfl, rfl, rfl, rfl, rfl, rfl, rfl, rfl⟩

/-- C5, as amended: when the parent sets a replica count `n` and
`wp.WebPodTemplateSpec(rt)` points to a template, the mutate function returns a
nil error on every Deployment, whatever its replica count, and leaves it with
`Spec.Replicas = n` and its status untouched. -/
theorem mutate_sets_replicas (M : WordpressMethods) (wp : Wordpress)
    (rt : Option WordpressRuntime) (t : PodTemplateSpec) (n : Int) (d : Deployment)
    (hT : M.WebPodTemplateSpec wp rt = some t) (hR : wp.Spec.Replicas = some n) :
    (mutateDeployment M wp rt d).outcome = Outcome.returned none ∧
    (mutateDeployment M wp rt d).out.Spec.Replicas = some n ∧
    (mutateDeployment M wp rt d).out.Status = d.Status := by
  rw [mutateDeployment_of_template M wp rt d t hT]
  simp [hR]

/-- C5 on the sample instance: a live Deployment with 2 replicas and a status
set by another actor gets 3 replicas and keeps its status. -/
theorem mutate_sets_replicas_witness :
    sampleMethods.WebPodTemplateSpec sampleWordpress none = some samplePodTemplate ∧
    sampleWordpress.Spec.Replicas = some 3 ∧
    sampleLive.Spec.Replicas = some 2 ∧
    (mutateDeployment sampleMethods sampleWordpress none sampleLive).outcome
      = Outcome.returned none ∧
    (mutateDeployment sampleMethods sampleWordpress none sampleLive).out.Spec.Replicas
      = some 3 ∧
    (mutateDeployment sampleMethods sampleWordpress none sampleLive).out.Status
      = sampleLive.Status :=
  ⟨rfl, rfl, rfl,
    mutate_sets_replicas sampleMethods sampleWordpress none samplePodTemplate 3 sampleLive
      rfl rfl⟩

/-- C5 as stated fails: the parent asks for 3 replicas, `WebPodTemplateSpec`
returns nil, and the call on a live Deployment with 2 replicas panics on the
dereference of line 44 before the replica assignment, leaving 2 replicas; so
"replica count set implies `Spec.Replicas = n` after the call" does not hold
for every helper behaviour, parent and Deployment. -/
theorem mutate_sets_replicas_counterexample :
    sampleWordpress.Spec.Replicas = some 3 ∧
    (mutateDeployment nilTemplateMethods sampleWordpress none sampleLive).outcome
      = Outcome.panicked Panic.nilDereference ∧
    (mutateDeployment nilTemplateMethods sampleWordpress none sampleLive).out.Spec.Replicas
      = some 2 ∧
    ¬ (∀ (M : WordpressMethods) (wp : Wordpress) (rt : Option WordpressRuntime) (n : Int)
        (d : Deployment), wp.Spec.Replicas = some n →
        (mutateDeployment M wp rt d).out.Spec.Replicas = some n ∧
        (mutateDeployment M wp rt d).out.Status = d.Status) := by
  have hrep : (mutateDeployment nilTemplateMethods sampleWordpress none sampleLive).out.Spec.Replicas
      = some 2 := rfl
  refine ⟨rfl, rfl, hrep, ?_⟩
  intro hall
  have h3 := (hall nilTemplateMethods sampleWordpress none 3 sampleLive rfl).1
  rw [hrep] at h3
  exact absurd h3 (by decide)

/-- C6: on a Deployment that already has the labels `wp.WebPodLabels()`, the
selector `SetAsLabelSelector(wp.WebPodLabels())`, the pod template
`wp.WebPodTemplateSpec(rt)` points to and, when the parent sets a replica
count, that replica count, the mutate function returns a nil error and leaves
the Deployment exactly as it was. -/
theorem mutate_noop_on_match (M : WordpressMethods) (wp : Wordpress)
    (rt : Option WordpressRuntime) (d : Deployment)
    (hL : d.Labels = M.WebPodLabels wp)
    (hS : d.Spec.Selector = SetAsLabelSelector (M.WebPodLabels wp))
    (hT : M.WebPodTemplateSpec wp rt = some d.Spec.Template)
    (hR : wp.Spec.Replicas ≠ none → d.Spec.Replicas = wp.Spec.Replicas) :
    mutateDeployment M wp rt d = { out := d, outcome := Outcome.returned none } := by
  rw [mutateDeployment_of_template M wp rt d _ hT, ← hS, ← hL]
  by_cases h : wp.Spec.Replicas = none
  · simp [h]
  · simp [h, ← hR h]

/-- C6 on the sample instance: the converged Deployment is left as it is. -/
theorem mutate_noop_on_match_witness :
    sampleConverged.Labels = sampleMethods.WebPodLabels sampleWordpress ∧
    sampleConverged.Spec.Selector
      = SetAsLabelSelector (sampleMethods.WebPodLabels sampleWordpress) ∧
    sampleMethods.WebPodTemplateSpec sampleWordpress none
      = some sampleConverged.Spec.Template ∧
    sampleConverged.Spec.Replicas = sampleWordpress.Spec.Replicas ∧
    mutateDeployment sampleMethods sampleWordpress none sampleConverged
      = { out := sampleConverged, outcome := Outcome.returned none } :=
  ⟨rfl, (SetAsLabelSelector_some _).symm, rfl, rfl,
    mutate_noop_on_match sampleMethods sampleWordpress none sampleConverged
      rfl (SetAsLabelSelector_some _).symm rfl (fun _ => rfl)⟩

/-- C7, as amended: the mutate function never returns a non-nil error, on any
Deployment and for any parent and runtime; whenever `wp.WebPodTemplateSpec(rt)`
points to a template the call returns, with the nil error, also on a Deployment
that already matches the desired state; and when that pointer is nil the call
does not return but panics on the nil dereference. -/
theorem mutate_returns_nil_error (M : WordpressMethods) (wp : Wordpress)
    (rt : Option WordpressRuntime) (d : Deployment) :
    (∀ e : String, (mutateDeployment M wp rt d).outcome ≠ Outcome.returned (some e)) ∧
    (∀ e : String, ((NewDeploymentSyncer M wp rt).SyncFn
        (RuntimeObject.deployment (some d))).outcome ≠ Outcome.returned (some e)) ∧
    (∀ t : PodTemplateSpec, M.WebPodTemplateSpec wp rt = some t →
      (mutateDeployment M wp rt d).outcome = Outcome.returned none ∧
      ((NewDeploymentSyncer M wp rt).SyncFn (RuntimeObject.deployment (some d))).outcome
        = Outcome.returned none) ∧
    (M.WebPodTemplateSpec wp rt = none →
      (mutateDeployment M wp rt d).outcome = Outcome.panicked Panic.nilDereference ∧
      ((NewDeploymentSyncer M wp rt).SyncFn (RuntimeObject.deployment (some d))).outcome
        = Outcome.panicked Panic.nilDereference) := by
  have hsync : ((NewDeploymentSyncer M wp rt).SyncFn
      (RuntimeObject.deployment (some d))).outcome = (mutateDeployment M wp rt d).outcome := rfl
  rw [hsync]
  cases hT : M.WebPodTemplateSpec wp rt with
  | none =>
    rw [mutateDeployment_of_nil_template M wp rt d hT]
    simp
  | some t =>
    rw [mutateDeployment_of_template M wp rt d t hT]
    simp

/-- C7, as amended, on the sample instances: with a template the call returns
the nil error both on a Deployment that needs changes and on one that needs
none; with the nil template pointer it panics. -/
theorem mutate_returns_nil_error_witness :
    sampleMethods.WebPodTemplateSpec sampleWordpress none = some samplePodTemplate ∧
    (mutateDeployment sampleMethods sampleWordpress none sampleLive).outcome
      = Outcome.returned none ∧
    (mutateDeployment sampleMethods sampleWordpress none sampleConverged).outcome
      = Outcome.returned none ∧
    nilTemplateMethods.WebPodTemplateSpec sampleWordpress none = none ∧
    (mutateDeployment nilTemplateMethods sampleWordpress none sampleLive).outcome
      = Outcome.panicked Panic.nilDereference :=
  ⟨rfl,
    ((mutate_returns_nil_error sampleMethods sampleWordpress none sampleLive).2.2.1
      samplePodTemplate rfl).1,
    ((mutate_returns_nil_error sampleMethods sampleWordpress none sampleConverged).2.2.1
      samplePodTemplate rfl).1,
    rfl,
    ((mutate_returns_nil_error nilTemplateMethods sampleWordpress none sampleLive).2.2.2
      rfl).1⟩

/-- C7 as stated fails: with `WebPodTemplateSpec` returning nil, the call on a
live Deployment does not return a nil error, it panics on the dereference of
line 44; so "returns a nil error" does not hold for every helper behaviour,
parent, runtime and Deployment. -/
theorem mutate_returns_nil_error_counterexample :
    (mutateDeployment nilTemplateMethods sampleWordpress none sampleLive).outcome
      ≠ Outcome.returned none ∧
    ((NewDeploymentSyncer nilTemplateMethods sampleWordpress none).SyncFn
        (RuntimeObject.deployment (some sampleLive))).outcome ≠ Outcome.returned none ∧
    ¬ (∀ (M : WordpressMethods) (wp : Wordpress) (rt : Option WordpressRuntime)
        (d : Deployment), (mutateDeployment M wp rt d).outcome = Outcome.returned none) := by
  have hout : (mutateDeployment nilTemplateMethods sampleWordpress none sampleLive).outcome
      = Outcome.panicked Panic.nilDereference := rfl
  have hne : (mutateDeployment nilTemplateMethods sampleWordpress none sampleLive).outcome
      ≠ Outcome.returned none := by
    rw [hout]; decide
  exact ⟨hne, hne, fun hall => hne (hall nilTemplateMethods sampleWordpress none sampleLive)⟩

/-- C8: when the parent leaves the replica count unset, the mutate function
leaves `Spec.Replicas` of every Deployment as it was, and on the fresh object of
`NewDeploymentSyncer` it stays nil. -/
theorem mutate_keeps_replicas_when_unset (M : WordpressMethods) (wp : Wordpress)
    (rt : Option WordpressRuntime) (hR : wp.Spec.Replicas = none) :
    (∀ d : Deployment, (mutateDeployment M wp rt d).out.Spec.Replicas = d.Spec.Replicas) ∧
    (∃ out : Deployment,
      ((NewDeploymentSyncer M wp rt).SyncFn (NewDeploymentSyncer M wp rt).Obj).obj
        = RuntimeObject.deployment (some out) ∧ out.Spec.Replicas = none) := by
  have body : ∀ d : Deployment,
      (mutateDeployment M wp rt d).out.Spec.Replicas = d.Spec.Replicas := by
    intro d
    cases hT : M.WebPodTemplateSpec wp rt with
    | none => rw [mutateDeployment_of_nil_template M wp rt d hT]
    | some t => rw [mutateDeployment_of_template M wp rt d t hT]; simp [hR]
  exact ⟨body, _, rfl, body _⟩

/-- C8 on the sample instance: with the replica count unset in the parent, the
2 replicas of the live Deployment stay. -/
theorem mutate_keeps_replicas_when_unset_witness :
    sampleWordpressNoReplicas.Spec.Replicas = none ∧
    (mutateDeployment sampleMethods sampleWordpressNoReplicas none sampleLive).out.Spec.Replicas
      = some 2 :=
  ⟨rfl, (mutate_keeps_replicas_when_unset sampleMethods sampleWordpressNoReplicas none rfl).1
    sampleLive⟩

/-- C9: when `wp.WebPodLabels()` is a non-nil set `ls`, the mutate function
leaves every Deployment with labels exactly `ls` and with a selector that has
no match expressions and whose `MatchLabels` is exactly `ls`, whatever labels
and selector the Deployment had; a key outside `ls` is not among its labels. -/
theorem mutate_selector_matches_labels (M : WordpressMethods) (wp : Wordpress)
    (rt : Option WordpressRuntime) (d : Deployment) (ls : StringMap)
    (hL : M.WebPodLabels wp = some ls) :
    (mutateDeployment M wp rt d).out.Labels = some ls ∧
    (mutateDeployment M wp rt d).out.Spec.Selector
      = some { MatchLabels := some ls, MatchExpressions := [] } ∧
    (∀ sel : LabelSelector, (mutateDeployment M wp rt d).out.Spec.Selector = some sel →
      sel.MatchLabels = (mutateDeployment M wp rt d).out.Labels ∧ sel.MatchExpressions = []) ∧
    (∀ (m : StringMap) (k : String), (mutateDeployment M wp rt d).out.Labels = some m →
      k ∉ ls → k ∉ m) := by
  have hlab : (mutateDeployment M wp rt d).out.Labels = some ls := by
    cases hT : M.WebPodTemplateSpec wp rt with
    | none => rw [mutateDeployment_of_nil_template M wp rt d hT]; exact hL
    | some t => rw [mutateDeployment_of_template M wp rt d t hT]; exact hL
  have hsel : (mutateDeployment M wp rt d).out.Spec.Selector
      = some { MatchLabels := some ls, MatchExpressions := [] } := by
    cases hT : M.WebPodTemplateSpec wp rt with
    | none =>
      rw [mutateDeployment_of_nil_template M wp rt d hT]
      show SetAsLabelSelector (M.WebPodLabels wp) = _
      rw [hL, SetAsLabelSelector_some]
    | some t =>
      rw [mutateDeployment_of_template M wp rt d t hT]
      show SetAsLabelSelector (M.WebPodLabels wp) = _
      rw [hL, SetAsLabelSelector_some]
  refine ⟨hlab, hsel, ?_, ?_⟩
  · intro sel hs
    rw [hsel] at hs
    cases hs
    exact ⟨hlab.symm, rfl⟩
  · intro m k hm hk
    rw [hlab] at hm
    cases hm
    exact hk

/-- C9 on the sample instance: the stale label of the live Deployment is gone
and labels and selector are both `app=web`. -/
theorem mutate_selector_matches_labels_witness :
    sampleMethods.WebPodLabels sampleWordpress = some (Finmap.singleton "app" "web") ∧
    sampleLive.Labels = some (Finmap.singleton "stale" "yes") ∧
    (mutateDeployment sampleMethods sampleWordpress none sampleLive).out.Labels
      = some (Finmap.singleton "app" "web") ∧
    (mutateDeployment sampleMethods sampleWordpress none sampleLive).out.Spec.Selector
      = some { MatchLabels := some (Finmap.singleton "app" "web"), MatchExpressions := [] } :=
  ⟨rfl, rfl,
    (mutate_selector_matches_labels sampleMethods sampleWordpress none sampleLive
      (Finmap.singleton "app" "web") rfl).1,
    (mutate_selector_matches_labels sampleMethods sampleWordpress none sampleLive
      (Finmap.singleton "app" "web") rfl).2.1⟩

/-- C10: when `wp.WebPodTemplateSpec(rt)` points to a template, the mutate
function returns (with the nil error) on every object that is a Deployment, in
particular on the object `NewDeploymentSyncer` itself supplies; and the type
assertion fails exactly on the objects whose dynamic type is not
`*appsv1.Deployment`. -/
theorem mutate_total_on_deployments (M : WordpressMethods) (wp : Wordpress)
    (rt : Option WordpressRuntime) (t : PodTemplateSpec)
    (hT : M.WebPodTemplateSpec wp rt = some t) :
    (∀ d : Deployment,
      ((NewDeploymentSyncer M wp rt).SyncFn (RuntimeObject.deployment (some d))).outcome
        = Outcome.returned none) ∧
    ((NewDeploymentSyncer M wp rt).SyncFn (NewDeploymentSyncer M wp rt).Obj).outcome
      = Outcome.returned none ∧
    (∀ existing : RuntimeObject,
      ((NewDeploymentSyncer M wp rt).SyncFn existing).outcome
          = Outcome.panicked Panic.interfaceConversion
        ↔ ∀ p : Option Deployment, existing ≠ RuntimeObject.deployment p) := by
  have body : ∀ d : Deployment,
      ((NewDeploymentSyncer M wp rt).SyncFn (RuntimeObject.deployment (some d))).outcome
        = Outcome.returned none := by
    intro d
    show (mutateDeployment M wp rt d).outcome = Outcome.returned none
    rw [mutateDeployment_of_template M wp rt d t hT]
  refine ⟨body, body _, ?_⟩
  intro existing
  show (mutate M wp rt existing).outcome = Outcome.panicked Panic.interfaceConversion ↔ _
  match existing with
  | RuntimeObject.nil => simp [mutate]
  | RuntimeObject.other _ => simp [mutate]
  | RuntimeObject.deployment none => simp [mutate]
  | RuntimeObject.deployment (some d) =>
    have hd := body d
    have hd2 : (mutate M wp rt (RuntimeObject.deployment (some d))).outcome
        = Outcome.returned none := hd
    rw [hd2]
    simp

/-- C10 on the sample instance: the call returns on the live Deployment and on
the syncer's own object, and panics in the type assertion on a Service. -/
theorem mutate_total_on_deployments_witness :
    sampleMethods.WebPodTemplateSpec sampleWordpress none = some samplePodTemplate ∧
    ((NewDeploymentSyncer sampleMethods sampleWordpress none).SyncFn
        (RuntimeObject.deployment (some sampleLive))).outcome = Outcome.returned none ∧
    ((NewDeploymentSyncer sampleMethods sampleWordpress none).SyncFn
        (NewDeploymentSyncer sampleMethods sampleWordpress none).Obj).outcome
      = Outcome.returned none ∧
    ((NewDeploymentSyncer sampleMethods sampleWordpress none).SyncFn
        (RuntimeObject.other "*corev1.Service")).outcome
      = Outcome.panicked Panic.interfaceConversion :=
  ⟨rfl,
    (mutate_total_on_deployments sampleMethods sampleWordpress none samplePodTemplate rfl).1
      sampleLive,
    (mutate_total_on_deployments sampleMethods sampleWordpress none samplePodTemplate rfl).2.1,
    ((mutate_total_on_deployments sampleMethods sampleWordpress none samplePodTemplate rfl).2.2
      (RuntimeObject.other "*corev1.Service")).mpr (fun _ h => nomatch h)⟩

end WordpressOperator
